import Mathlib

/-!
Verification of the MovieExplorer state-and-pagination controller
(`src/contexts/MovieContext.tsx`).

The React component's state hooks are embedded as one record `MovieState`;
`localStorage` is an association list of string keys to string values; each
async fetch is a state transformer additionally parameterized by the network
outcome (`Except Unit SearchResults`) and returning the list of HTTP requests
it issued.
-/

namespace MovieExplorer

/-- `FilterOptions` from MovieContext.tsx: `{ genre, year, minRating }`,
each a string, empty string meaning "not applied". -/
structure FilterOptions where
  genre : String
  year : String
  minRating : String
deriving DecidableEq

/-- A movie summary. Only the `id` field is inspected by the controller;
all other list-view metadata is abstracted into `data`. -/
structure Movie where
  id : Int
  data : String
deriving DecidableEq

/-- The shape of `SearchResults` responses from the API:
`{results, page, total_pages}`. `results` is optional because the code
guards with `response.data.results || []`. -/
structure SearchResults where
  results : Option (List Movie)
  page : Int
  total_pages : Int
deriving DecidableEq

/-- An HTTP request: endpoint path plus query parameters (all values
rendered as strings). -/
structure Request where
  endpoint : String
  params : List (String × String)
deriving DecidableEq

/-- The localStorage model: an association list from keys to values. -/
abbrev Storage := List (String × String)

/-- `localStorage.setItem k v`: replace any binding of `k` with `v`. -/
def kvSet (st : Storage) (k v : String) : Storage :=
  (st.filter (fun p => p.1 ≠ k)) ++ [(k, v)]

/-- `localStorage.removeItem k`. -/
def kvRemove (st : Storage) (k : String) : Storage :=
  st.filter (fun p => p.1 ≠ k)

/-- `localStorage.getItem k` (`none` models JS `null`). -/
def kvGet (st : Storage) (k : String) : Option String :=
  (st.find? (fun p => p.1 = k)).map (fun p => p.2)

/-- A concrete rendering of one movie, standing for its JSON object. -/
def encodeMovie (m : Movie) : String :=
  "\x7b\"id\":" ++ toString m.id ++ "," ++ m.data ++ "\x7d"

/-- `JSON.stringify` of the favorites sequence. -/
def encodeFavorites (l : List Movie) : String :=
  "[" ++ String.intercalate "," (l.map encodeMovie) ++ "]"

/-- The full state of the `MovieProvider` component: one field per
`useState` hook, plus the localStorage contents. -/
structure MovieState where
  trendingMovies : List Movie
  searchResults : List Movie
  favorites : List Movie
  searchQuery : String
  isLoading : Bool
  error : Option String
  currentPage : Int
  totalPages : Int
  currentFilters : FilterOptions
  storage : Storage
deriving DecidableEq

/-- The empty filter record `{ genre: '', year: '', minRating: '' }`. -/
def emptyFilters : FilterOptions := ⟨"", "", ""⟩

/-- The conditional filter-parameter mapping shared by both fetches:
`if (filters.genre) params.with_genres = filters.genre;` etc.
A JS string is truthy exactly when it is non-empty. -/
def filterParams (filters : Option FilterOptions) : List (String × String) :=
  match filters with
  | none => []
  | some f =>
      (if f.genre ≠ "" then [("with_genres", f.genre)] else []) ++
      (if f.year ≠ "" then [("primary_release_year", f.year)] else []) ++
      (if f.minRating ≠ "" then [("vote_average_gte", f.minRating)] else [])

/-- Parameters of the `/trending/movie/day` request: `{ page }` plus the
conditionally added filter parameters. -/
def buildTrendingParams (page : Int) (filters : Option FilterOptions) :
    List (String × String) :=
  [("page", toString page)] ++ filterParams filters

/-- Parameters of the `/search/movie` request:
`{ query, page, include_adult: false }` plus the filter parameters. -/
def buildSearchParams (query : String) (page : Int)
    (filters : Option FilterOptions) : List (String × String) :=
  [("query", query), ("page", toString page), ("include_adult", "false")] ++
    filterParams filters

/-- The truthiness test `!query.trim()` from the search guard: JS `trim`
removes whitespace from both ends, and the trimmed string is falsy exactly
when it is empty, i.e. when every character of `query` is whitespace. -/
def isBlank (query : String) : Bool :=
  query.data.all Char.isWhitespace

/-- `getTrendingMovies(page = 1, filters?)` as a state transformer.
Mirrors the source line by line: set loading and clear error, build the
params, issue the request; on success replace (page 1) or append the
results, update the pagination counters and current filters; on failure
set the error message; finally clear loading. -/
def getTrendingMovies (page : Int) (filters : Option FilterOptions)
    (resp : Except Unit SearchResults) (s : MovieState) :
    MovieState × List Request :=
  let s1 := { s with isLoading := true, error := none }
  let req : Request := ⟨"/trending/movie/day", buildTrendingParams page filters⟩
  match resp with
  | .ok d =>
      let movies := d.results.getD []
      let s2 := { s1 with
        trendingMovies :=
          if page = 1 then movies else s1.trendingMovies ++ movies,
        currentPage := d.page,
        totalPages := d.total_pages,
        currentFilters := filters.getD emptyFilters }
      ({ s2 with isLoading := false }, [req])
  | .error _ =>
      ({ s1 with
          error := some "Failed to fetch trending movies. Please try again later.",
          isLoading := false }, [req])

/-- `searchMovies(query, page = 1, filters?)` as a state transformer.
The guard `if (!query.trim()) return;` makes whitespace-only queries a
no-op. Otherwise the active query is set before the request is issued;
on success the results are replaced/appended, counters and filters
updated, and `lastSearch` persisted; on failure only the error message
is set. -/
def searchMovies (query : String) (page : Int) (filters : Option FilterOptions)
    (resp : Except Unit SearchResults) (s : MovieState) :
    MovieState × List Request :=
  if isBlank query then (s, [])
  else
    let s1 := { s with isLoading := true, error := none, searchQuery := query }
    let req : Request := ⟨"/search/movie", buildSearchParams query page filters⟩
    match resp with
    | .ok d =>
        let movies := d.results.getD []
        let s2 := { s1 with
          searchResults :=
            if page = 1 then movies else s1.searchResults ++ movies,
          currentPage := d.page,
          totalPages := d.total_pages,
          currentFilters := filters.getD emptyFilters,
          storage := kvSet s1.storage "lastSearch" query }
        ({ s2 with isLoading := false }, [req])
    | .error _ =>
        ({ s1 with
            error := some "Failed to find movies. Please try again later.",
            isLoading := false }, [req])

/-- `loadMoreTrending()`: fetch the next trending page with the recorded
filters if more pages remain, else do nothing. -/
def loadMoreTrending (resp : Except Unit SearchResults) (s : MovieState) :
    MovieState × List Request :=
  if s.currentPage < s.totalPages then
    getTrendingMovies (s.currentPage + 1) (some s.currentFilters) resp s
  else (s, [])

/-- `loadMoreResults()`: re-run the recorded search at the next page with
the recorded filters if more pages remain, else do nothing. -/
def loadMoreResults (resp : Except Unit SearchResults) (s : MovieState) :
    MovieState × List Request :=
  if s.currentPage < s.totalPages then
    searchMovies s.searchQuery (s.currentPage + 1) (some s.currentFilters) resp s
  else (s, [])

/-- `resetSearch()`: clear results, query and filters, reset the page
cursor to 1, and remove the persisted `lastSearch` entry. -/
def resetSearch (s : MovieState) : MovieState :=
  { s with
    searchResults := [],
    searchQuery := "",
    currentPage := 1,
    currentFilters := emptyFilters,
    storage := kvRemove s.storage "lastSearch" }

/-- `addToFavorites(movie)`: if no entry shares the movie's id, append it
and write the updated sequence through to storage; otherwise no-op. -/
def addToFavorites (movie : Movie) (s : MovieState) : MovieState :=
  if s.favorites.any (fun m => m.id = movie.id) then s
  else
    let updated := s.favorites ++ [movie]
    { s with
      favorites := updated,
      storage := kvSet s.storage "favorites" (encodeFavorites updated) }

/-- `removeFromFavorites(movieId)`: filter out entries with that id and
write the result through to storage unconditionally. -/
def removeFromFavorites (movieId : Int) (s : MovieState) : MovieState :=
  let updated := s.favorites.filter (fun m => m.id ≠ movieId)
  { s with
    favorites := updated,
    storage := kvSet s.storage "favorites" (encodeFavorites updated) }

/-- `isFavorite(movieId)`: pure membership check on the in-memory
favorites. -/
def isFavorite (movieId : Int) (s : MovieState) : Bool :=
  s.favorites.any (fun m => m.id = movieId)

/-- The initial hook values of the provider: empty result sets and
favorites, empty query, loading false, no error, page counters 1,
empty filters, empty storage. -/
def initState : MovieState :=
  ⟨[], [], [], "", false, none, 1, 1, emptyFilters, []⟩

/-- A state whose active query is `"old"`, used to exercise a search for
a different query. -/
def oldQueryState : MovieState := { initState with searchQuery := "old" }

/-- A state whose persisted favorites encoding matches its (empty)
in-memory favorites. -/
def favSyncState : MovieState :=
  { initState with storage := [("favorites", encodeFavorites [])] }

/-- A sample movie. -/
def movieA : Movie := ⟨7, "\"title\":\"A\""⟩

-- Helper lemmas about the storage model.

theorem kvGet_kvRemove (st : Storage) (k : String) :
    kvGet (kvRemove st k) k = none := by
  induction st with
  | nil => rfl
  | cons p t ih =>
      by_cases h : p.1 = k
      · simp [kvRemove, kvGet, h] at ih ⊢
      · simp [kvRemove, kvGet, h] at ih ⊢

theorem kvGet_kvSet_self (st : Storage) (k v : String) :
    kvGet (kvSet st k v) k = some v := by
  induction st with
  | nil => simp [kvSet, kvGet]
  | cons p t ih =>
      by_cases h : p.1 = k
      · simp [kvSet, kvGet, h] at ih ⊢
      · simp [kvSet, kvGet, h] at ih ⊢

/-- C1: for every successful trending or search fetch, requesting page 1
replaces the corresponding result sequence with exactly the response's
results list, and requesting a page greater than 1 appends the response's
results at the end in response order with no deduplication. -/
theorem page1_replaces_pageN_appends (page : Int) (filters : Option FilterOptions)
    (d : SearchResults) (s : MovieState) (q : String) (hq : isBlank q = false) :
    (page = 1 →
      (getTrendingMovies page filters (Except.ok d) s).1.trendingMovies =
        d.results.getD [] ∧
      (searchMovies q page filters (Except.ok d) s).1.searchResults =
        d.results.getD []) ∧
    (1 < page →
      (getTrendingMovies page filters (Except.ok d) s).1.trendingMovies =
        s.trendingMovies ++ d.results.getD [] ∧
      (searchMovies q page filters (Except.ok d) s).1.searchResults =
        s.searchResults ++ d.results.getD []) := by
  constructor
  · intro h
    subst h
    simp [getTrendingMovies, searchMovies, hq]
  · intro h
    have hne : page ≠ 1 := by omega
    simp [getTrendingMovies, searchMovies, hq, hne]

/-- Witness for C1 at page 2: trending and search results are appended. -/
theorem page1_replaces_pageN_appends_witness :
    (getTrendingMovies 2 none (Except.ok ⟨some [movieA], 2, 3⟩)
        initState).1.trendingMovies = initState.trendingMovies ++ [movieA] ∧
    (searchMovies "hero" 2 none (Except.ok ⟨some [movieA], 2, 3⟩)
        initState).1.searchResults = initState.searchResults ++ [movieA] := by
  have h := page1_replaces_pageN_appends 2 none ⟨some [movieA], 2, 3⟩
    initState "hero" (by decide)
  exact h.2 (by norm_num)

/-- C3: a query that trims to the empty string makes searchMovies a
complete no-op: the state is unchanged and no request is issued. -/
theorem search_whitespace_noop (q : String) (hq : isBlank q = true) (page : Int)
    (filters : Option FilterOptions) (resp : Except Unit SearchResults)
    (s : MovieState) :
    searchMovies q page filters resp s = (s, []) := by
  simp [searchMovies, hq]

/-- Witness for C3 at the whitespace-only query. -/
theorem search_whitespace_noop_witness :
    searchMovies "   " 1 none (Except.error ()) initState = (initState, []) :=
  search_whitespace_noop "   " (by decide) 1 none (Except.error ()) initState

/-- C4: in both the trending and search requests, each filter field is
forwarded as its API query parameter exactly when it is non-empty, and
then with the field's own value. -/
theorem filter_params_mapped (page : Int) (q : String) (f : FilterOptions)
    (v : String) :
    (("with_genres", v) ∈ buildTrendingParams page (some f) ↔
      f.genre ≠ "" ∧ v = f.genre) ∧
    (("primary_release_year", v) ∈ buildTrendingParams page (some f) ↔
      f.year ≠ "" ∧ v = f.year) ∧
    (("vote_average_gte", v) ∈ buildTrendingParams page (some f) ↔
      f.minRating ≠ "" ∧ v = f.minRating) ∧
    (("with_genres", v) ∈ buildSearchParams q page (some f) ↔
      f.genre ≠ "" ∧ v = f.genre) ∧
    (("primary_release_year", v) ∈ buildSearchParams q page (some f) ↔
      f.year ≠ "" ∧ v = f.year) ∧
    (("vote_average_gte", v) ∈ buildSearchParams q page (some f) ↔
      f.minRating ≠ "" ∧ v = f.minRating) := by
  by_cases hg : f.genre = "" <;> by_cases hy : f.year = "" <;>
    by_cases hr : f.minRating = "" <;>
    simp [buildTrendingParams, buildSearchParams, filterParams, hg, hy, hr,
      and_comm]

/-- C5: loadMoreTrending and loadMoreResults are guarded continuations:
no-ops when currentPage is at least totalPages, and otherwise exactly the
corresponding fetch for page currentPage + 1 with the recorded filters
(and recorded query, for search). -/
theorem loadMore_guarded (s : MovieState) (resp : Except Unit SearchResults) :
    (s.totalPages ≤ s.currentPage →
      loadMoreTrending resp s = (s, []) ∧ loadMoreResults resp s = (s, [])) ∧
    (s.currentPage < s.totalPages →
      loadMoreTrending resp s =
        getTrendingMovies (s.currentPage + 1) (some s.currentFilters) resp s ∧
      loadMoreResults resp s =
        searchMovies s.searchQuery (s.currentPage + 1) (some s.currentFilters)
          resp s) := by
  constructor
  · intro h
    have h2 : ¬ s.currentPage < s.totalPages := by omega
    simp [loadMoreTrending, loadMoreResults, h2]
  · intro h
    simp [loadMoreTrending, loadMoreResults, h]

/-- Witness for C5 at a saturated cursor (currentPage = totalPages = 1):
both continuations are no-ops. -/
theorem loadMore_guarded_witness :
    loadMoreTrending (Except.error ()) initState = (initState, []) ∧
    loadMoreResults (Except.error ()) initState = (initState, []) :=
  (loadMore_guarded initState (Except.error ())).1 (by norm_num [initState])

/-- C6: resetSearch clears the search results, the active query and the
filters, resets the current page to 1, and removes the persisted
lastSearch entry from storage. -/
theorem resetSearch_spec (s : MovieState) :
    (resetSearch s).searchResults = [] ∧
    (resetSearch s).searchQuery = "" ∧
    (resetSearch s).currentPage = 1 ∧
    (resetSearch s).currentFilters = emptyFilters ∧
    kvGet (resetSearch s).storage "lastSearch" = none :=
  ⟨rfl, rfl, rfl, rfl, kvGet_kvRemove s.storage "lastSearch"⟩

/-- C7: addToFavorites is idempotent: a second call with the same movie
changes nothing, in memory or in storage (the full states agree). -/
theorem addFavorite_idempotent (movie : Movie) (s : MovieState) :
    addToFavorites movie (addToFavorites movie s) = addToFavorites movie s := by
  by_cases h : s.favorites.any (fun m => m.id = movie.id)
  · simp [addToFavorites, h]
  · have h2 : ((s.favorites ++ [movie]).any (fun m => m.id = movie.id)) = true := by
      simp
    simp [addToFavorites, h, h2]

/-- C8: removing an identifier not present in the favorites leaves the
sequence unchanged, while the write-through to storage still happens
(with the encoding of the unchanged sequence). -/
theorem removeFavorite_nonmember (movieId : Int) (s : MovieState)
    (h : ∀ m ∈ s.favorites, m.id ≠ movieId) :
    (removeFromFavorites movieId s).favorites = s.favorites ∧
    (removeFromFavorites movieId s).storage =
      kvSet s.storage "favorites" (encodeFavorites s.favorites) := by
  have hf : s.favorites.filter (fun m => m.id ≠ movieId) = s.favorites := by
    rw [List.filter_eq_self]
    intro m hm
    simpa using h m hm
  constructor
  · simp only [removeFromFavorites]
    rw [hf]
  · simp only [removeFromFavorites]
    rw [hf]

/-- Witness for C8: removing id 5 from an empty favorites list. -/
theorem removeFavorite_nonmember_witness :
    (removeFromFavorites 5 initState).favorites = initState.favorites ∧
    (removeFromFavorites 5 initState).storage =
      kvSet initState.storage "favorites"
        (encodeFavorites initState.favorites) :=
  removeFavorite_nonmember 5 initState (by simp [initState])

/-- C9: starting from a state whose persisted favorites entry equals the
encoding of the in-memory favorites, both mutations re-establish that
equality. -/
theorem favorites_write_through (s : MovieState)
    (h : kvGet s.storage "favorites" = some (encodeFavorites s.favorites))
    (movie : Movie) (movieId : Int) :
    kvGet (addToFavorites movie s).storage "favorites" =
      some (encodeFavorites (addToFavorites movie s).favorites) ∧
    kvGet (removeFromFavorites movieId s).storage "favorites" =
      some (encodeFavorites (removeFromFavorites movieId s).favorites) := by
  constructor
  · by_cases hm : s.favorites.any (fun m => m.id = movie.id)
    · simpa [addToFavorites, hm] using h
    · simp [addToFavorites, hm, kvGet_kvSet_self]
  · simp [removeFromFavorites, kvGet_kvSet_self]

/-- Witness for C9 on a synchronized state with empty favorites. -/
theorem favorites_write_through_witness :
    kvGet (addToFavorites movieA favSyncState).storage "favorites" =
      some (encodeFavorites (addToFavorites movieA favSyncState).favorites) ∧
    kvGet (removeFromFavorites 2 favSyncState).storage "favorites" =
      some (encodeFavorites (removeFromFavorites 2 favSyncState).favorites) :=
  favorites_write_through favSyncState rfl movieA 2

/-- C10: a failed search leaves storage (and in particular the persisted
lastSearch entry) unchanged even though the in-memory query has already
been set; a successful search persists the query under lastSearch. -/
theorem search_persists_query_only_on_success (q : String)
    (hq : isBlank q = false) (page : Int) (filters : Option FilterOptions)
    (s : MovieState) :
    (searchMovies q page filters (Except.error ()) s).1.storage = s.storage ∧
    (searchMovies q page filters (Except.error ()) s).1.searchQuery = q ∧
    ∀ d : SearchResults,
      kvGet (searchMovies q page filters (Except.ok d) s).1.storage
        "lastSearch" = some q := by
  refine ⟨?_, ?_, fun d => ?_⟩ <;>
    simp [searchMovies, hq, kvGet_kvSet_self]

/-- Witness for C10 at a concrete failed and successful search. -/
theorem search_persists_query_only_on_success_witness :
    (searchMovies "hero" 1 none (Except.error ()) initState).1.storage =
      initState.storage ∧
    (searchMovies "hero" 1 none (Except.error ()) initState).1.searchQuery =
      "hero" ∧
    ∀ d : SearchResults,
      kvGet (searchMovies "hero" 1 none (Except.ok d) initState).1.storage
        "lastSearch" = some "hero" :=
  search_persists_query_only_on_success "hero" (by decide) 1 none initState

/-- C2 counterexample: a failed search does NOT leave all non-error,
non-loading state intact — the active query changes from "old" to "new"
when searchMovies "new" fails. -/
theorem search_failure_changes_query_cex :
    ¬ ((searchMovies "new" 1 none (Except.error ()) oldQueryState).1.searchQuery
        = oldQueryState.searchQuery) := by
  simp [searchMovies, oldQueryState, initState, isBlank]

/-- C2 (amended): a failed trending fetch sets the error message and
changes nothing else but the loading flag; a failed search sets the error
message and the active query to the requested query and changes nothing
else but the loading flag (the full resulting states are spelled out, so
results, favorites, counters, filters and storage are all preserved). -/
theorem fetch_failure_frame (page : Int) (filters : Option FilterOptions)
    (s : MovieState) (q : String) (hq : isBlank q = false) :
    (getTrendingMovies page filters (Except.error ()) s).1 =
      { s with
        error := some "Failed to fetch trending movies. Please try again later.",
        isLoading := false } ∧
    (searchMovies q page filters (Except.error ()) s).1 =
      { s with
        error := some "Failed to find movies. Please try again later.",
        isLoading := false,
        searchQuery := q } := by
  exact ⟨by simp [getTrendingMovies], by simp [searchMovies, hq]⟩

/-- Witness for the amended C2 at a concrete failed trending fetch and
failed search. -/
theorem fetch_failure_frame_witness :
    (getTrendingMovies 1 none (Except.error ()) oldQueryState).1 =
      { oldQueryState with
        error := some "Failed to fetch trending movies. Please try again later.",
        isLoading := false } ∧
    (searchMovies "new" 1 none (Except.error ()) oldQueryState).1 =
      { oldQueryState with
        error := some "Failed to find movies. Please try again later.",
        isLoading := false,
        searchQuery := "new" } :=
  fetch_failure_frame 1 none oldQueryState "new" (by decide)

end MovieExplorer
